import Mathlib

/-!
# TSTools: formal embedding of the repository's verifiable logic

TSTools is a QGIS plugin for visualizing remote-sensing pixel time series.
This file shallowly embeds the parts of the repository that the spec's
claims are about: the packaging/provisioning shell scripts and the
Makefile (present verbatim under the repository), and the plugin data
model and control flow (driver interface, Series container, click
handling, startup ordering), which are modelled from the spec because
the plugin's Python sources are not part of this source snapshot.
-/

namespace TSTools

/-! ## docs/source/_static/make_sfood.sh

```bash
if [ -z $1 ]; then
    echo "Must provide root of TSTools/src as 1st arg"
    exit 1
fi
if [ -z $2 ]; then
    out=TSTools_Graph.pdf
else
    out=$2
fi
sfood -i $1 | sfood-cluster | sfood-graph > $(basename $out .pdf).dot
sfood -i $1 | sfood-cluster | sfood-graph | dot -Tps | ps2pdf - $out
```
-/

/-- Outcome of running `make_sfood.sh`: the exit status, what was echoed to
stdout, and the output files the pipeline wrote (the `.dot` file and the
final PDF), in the order they are produced. -/
structure SfoodOutcome where
  exitCode : Nat
  echoed : List String
  filesWritten : List String
  deriving Repr, DecidableEq

/-- Characters after the last `/` of a path (the whole path when it has no
`/`), as `basename` computes it for the paths this script sees. -/
def afterLastSlash (l : List Char) : List Char :=
  l.foldl (fun acc c => if c = '/' then [] else acc ++ [c]) []

/-- Strip one trailing `.pdf` from a character list, when present. -/
def stripPdfSuffix (l : List Char) : List Char :=
  if l.reverse.take 4 = ['f', 'd', 'p', '.'] then (l.reverse.drop 4).reverse
  else l

/-- `basename $out .pdf`: strip any directory prefix, then strip a trailing
`.pdf` suffix if present. -/
def basenameStripPdf (out : String) : String :=
  ⟨stripPdfSuffix (afterLastSlash out.data)⟩

/-- Embedding of `make_sfood.sh` as a function of its first two positional
arguments (absent arguments are the empty string, matching `[ -z $1 ]`). -/
def make_sfood (arg1 arg2 : String) : SfoodOutcome :=
  if arg1 = "" then
    { exitCode := 1
      echoed := ["Must provide root of TSTools/src as 1st arg"]
      filesWritten := [] }
  else
    let out := if arg2 = "" then "TSTools_Graph.pdf" else arg2
    { exitCode := 0
      echoed := []
      filesWritten := [basenameStripPdf out ++ ".dot", out] }

/-! ## vagrant/setup/bootstrap.sh

```bash
if [ -f ~/.bootstrap_complete ]; then
    exit 0
fi
set -x
sudo apt-get update -y
... (package operations, no `set -e` anywhere) ...
sudo apt-get install qgis -y
touch ~/.bootstrap_complete
```
-/

/-- The package operations `bootstrap.sh` performs, in script order.
The script never enables `set -e`, so every line runs regardless of the
failure of earlier ones, and the final `touch` always executes. -/
def bootstrapPackageOps : List String :=
  [ "apt-get update"
  , "apt-get dist-upgrade"
  , "apt-get install python-software-properties"
  , "add-apt-repository ppa:ubuntugis/ubuntugis-unstable"
  , "apt-get update"
  , "apt-get dist-upgrade"
  , "apt-get install build-essential curl git vim zip bzip2 python-dev python-setuptools python-pip python-virtualenv virtualenvwrapper pyqt4-dev-tools gdal-bin libgdal-dev"
  , "apt-get build-dep python-matplotlib"
  , "apt-get install qgis" ]

/-- State of the provisioned machine as far as `bootstrap.sh` observes and
changes it: whether `~/.bootstrap_complete` exists, and the log of package
operations executed so far. -/
structure BootState where
  markerPresent : Bool
  opsLog : List String
  deriving Repr, DecidableEq

/-- Embedding of one run of `bootstrap.sh`: if the marker file exists the
script exits 0 immediately; otherwise it performs every package operation
and then touches the marker. Returns the new state and the exit status. -/
def runBootstrap (s : BootState) : BootState × Nat :=
  if s.markerPresent then (s, 0)
  else ({ markerPresent := true, opsLog := s.opsLog ++ bootstrapPackageOps }, 0)

/-! ## tstools/Makefile: the `zip` target

```make
dclean:
	find $(LOC)/$(PLUGINNAME) -iname "*.pyc" -delete
	find $(LOC)/$(PLUGINNAME) -iname ".svn" -prune -exec rm -Rf ... \;

zip: deploy dclean
	rm -f ../$(PLUGINNAME).zip
	cd $(LOC); zip -9r $(CURDIR)/../$(PLUGINNAME).zip $(PLUGINNAME)
```

Sequential make runs the prerequisites `deploy` then `dclean` left to
right, then the recipe lines in order.
-/

/-- The actions `make zip` performs. -/
inductive MakeAct where
  | deployFiles
  | dcleanFiles
  | removeOldZip
  | writeZip
  deriving Repr, DecidableEq

/-- The two recipe lines of the `zip` target, in order. -/
def zipRecipeActs : List MakeAct := [.removeOldZip, .writeZip]

/-- The prerequisites of the `zip` target, in the Makefile's order. -/
def zipPrereqActs : List MakeAct := [.deployFiles, .dcleanFiles]

/-- What sequential `make zip` executes: prerequisites first, then the
recipe. -/
def zipTargetTrace : List MakeAct := zipPrereqActs ++ zipRecipeActs

/-- State the Makefile targets act on: the files deployed under
`$(LOC)/$(PLUGINNAME)` and the contents of `../tstools.zip` when that
archive exists. -/
structure PluginFS where
  deployed : List String
  zipContents : Option (List String)
  deriving Repr, DecidableEq

/-- Split a path into its `/`-separated components. -/
def splitSlash : List Char → List (List Char)
  | [] => [[]]
  | c :: rest =>
    let r := splitSlash rest
    if c = '/' then [] :: r
    else
      match r with
      | [] => [[c]]
      | h :: t => (c :: h) :: t

/-- `find -iname "*.pyc"`: the file name ends in `.pyc`, matched
case-insensitively. -/
def isPycFile (f : String) : Bool :=
  (f.data.map Char.toLower).reverse.take 4 == ['c', 'y', 'p', '.']

/-- `find -iname ".svn" -prune -exec rm -Rf`: the path has a component
named `.svn` (matched case-insensitively), so it is removed with that
directory's subtree. -/
def inSvnDir (f : String) : Bool :=
  (splitSlash f.data).any (fun comp => comp.map Char.toLower == ['.', 's', 'v', 'n'])

/-- `deploy` (via `cp -vRf`) copies the plugin sources into the install
location on top of whatever is already deployed there; it deletes
nothing. -/
def deploy (sources : List String) (fs : PluginFS) : PluginFS :=
  { fs with deployed := fs.deployed ++ sources }

/-- `dclean` deletes compiled `*.pyc` files and `.svn` entries from the
deployed plugin directory. -/
def dclean (fs : PluginFS) : PluginFS :=
  { fs with deployed := fs.deployed.filter (fun f => !(isPycFile f || inSvnDir f)) }

/-- One Makefile action, over the filesystem state. -/
def execAct (sources : List String) (fs : PluginFS) : MakeAct → PluginFS
  | .deployFiles => deploy sources fs
  | .dcleanFiles => dclean fs
  | .removeOldZip => { fs with zipContents := none }
  | .writeZip => { fs with zipContents := some fs.deployed }

/-- Running `make zip`: execute the target's trace over the filesystem. -/
def makeZip (sources : List String) (fs : PluginFS) : PluginFS :=
  zipTargetTrace.foldl (execAct sources) fs

/-! ## Plugin data model and control flow

The plugin's Python sources are not part of this source snapshot, so the
driver interface, the Series container, click handling and the startup
ordering are modelled from the spec. -/

/-- One time-series observation at a pixel: an ordinal date paired with the
spectral value measured there. -/
structure Observation where
  date : Nat
  value : Int
  deriving Repr, DecidableEq

/-- Modelled from the spec: the missing `Series` class of the plugin
sources — "a logical grouping of images/bands/symbology/metadata within a
driver's dataset", one sub-dataset (e.g. one satellite mission). -/
structure Series where
  images : List String
  band_names : List String
  symbology : List String
  metadata : List (String × String)
  deriving Repr, DecidableEq

/-- Modelled from the spec: the missing driver base class of the plugin
sources — "a pluggable adapter class exposing a fixed interface (image
list, per-pixel series retrieval, model fit retrieval)". The image list is
the images of the driver's Series; `get_data` retrieves a pixel's series
and `get_prediction` its model fit. -/
structure Driver where
  series : List Series
  get_data : Nat → Nat → List Observation
  get_prediction : Nat → Nat → List Observation

/-- The driver's image-list capability: the images of all its Series. -/
def Driver.images (d : Driver) : List String :=
  (d.series.map Series.images).flatten

/-- The queries the UI issues against the active driver. -/
inductive DriverOp where
  | listImages
  | getData (x y : Nat)
  | getPrediction (x y : Nat)
  deriving Repr, DecidableEq

/-- What a driver query returns. -/
inductive OpOutput where
  | imageList (imgs : List String)
  | observations (obs : List Observation)

/-- Modelled from the spec: applying a driver operation — each query reads
from the driver and returns the (unchanged) driver with its output. -/
def applyOp (d : Driver) : DriverOp → Driver × OpOutput
  | .listImages => (d, .imageList d.images)
  | .getData x y => (d, .observations (d.get_data x y))
  | .getPrediction x y => (d, .observations (d.get_prediction x y))

/-- What one plot rendering holds: the pixel's spectral values over time
and the model-fit overlay. -/
structure PlotContents where
  observations : List Observation
  modelFits : List Observation
  deriving Repr, DecidableEq

/-- Modelled from the spec: the missing controller code handling a map
click — when the plugin's map tool is active, a click on a pixel retrieves
that pixel's time series and model fit from the active driver and renders
them; when the tool is inactive, nothing is plotted. -/
def handleClick (toolActive : Bool) (d : Driver) (x y : Nat) : Option PlotContents :=
  if toolActive then some { observations := d.get_data x y, modelFits := d.get_prediction x y }
  else none

/-- An external analysis package a driver can delegate model fitting to:
either a native numerical library, or a statistical language runtime (R)
reached by inter-process calls. -/
inductive ExternalPackage where
  | nativeLibrary (fit : List Observation → List Observation)
  | rRuntime (fit : List Observation → List Observation)

/-- The fitting routine an external package provides. -/
def ExternalPackage.fitFunction : ExternalPackage → List Observation → List Observation
  | .nativeLibrary fit => fit
  | .rRuntime fit => fit

/-- Modelled from the spec: the missing driver code computing a model fit —
the repository implements no change-detection or phenology model itself,
so a fit is obtained solely by delegating to an installed external
package; with no package installed, no fit can be computed. -/
def computeModelFit (installed : Option ExternalPackage)
    (series : List Observation) : Option (List Observation) :=
  match installed with
  | none => none
  | some pkg => some (pkg.fitFunction series)

/-- The control-flow events of the plugin's startup and use. -/
inductive PluginEvent where
  | registerActions
  | initDriver
  | mediateUI
  | queryDriver
  deriving Repr, DecidableEq

/-- The phases the plugin passes through. -/
inductive PluginPhase where
  | loaded
  | actionsRegistered
  | driverInitialized
  | mediating
  deriving Repr, DecidableEq

/-- Modelled from the spec: the missing plugin wiring's control flow — the
host-application entry point registers the toolbar actions, then the
configuration dialog selects and initializes a driver, then the controller
widget mediates between the map-click tool, images table, symbology tab
and plot canvases, and only then is the driver queried (repeatedly). Any
other order of events is rejected. -/
def pluginStep : PluginPhase → PluginEvent → Option PluginPhase
  | .loaded, .registerActions => some .actionsRegistered
  | .actionsRegistered, .initDriver => some .driverInitialized
  | .driverInitialized, .mediateUI => some .mediating
  | .mediating, .queryDriver => some .mediating
  | _, _ => none

/-- Run a sequence of plugin events from a phase; `none` when some event is
out of order. -/
def runPlugin : PluginPhase → List PluginEvent → Option PluginPhase
  | p, [] => some p
  | p, e :: es =>
    match pluginStep p e with
    | none => none
    | some q => runPlugin q es

/-- Whether a driver query occurs before any driver initialization in an
event sequence. -/
def queryBeforeInit : List PluginEvent → Bool
  | [] => false
  | PluginEvent.queryDriver :: _ => true
  | PluginEvent.initDriver :: _ => false
  | _ :: es => queryBeforeInit es

/-- Driver implementations shipped inside this repository, in its
`tstools.ts_drivers.drivers` submodule, as the repository's changelog
records them (v1.1.0 reorganized the timeseries drivers into that
submodule; later entries fix the YATSM CCDCesque, Stacked Time Series,
PALSAR/Landsat and YATSM Meteorological drivers). -/
def inRepoDriverImplementations : List String :=
  ["YATSM CCDCesque", "Stacked Time Series", "PALSAR/Landsat", "YATSM Meteorological"]

/-- How the plugin locates time-series drivers, per the changelog:
setuptools entry points enumerated with `pkg_resources.iter_entry_points`
(so implementations may also come from outside the repository). -/
def driverDiscoveryMechanism : String := "pkg_resources.iter_entry_points"

/-- A sample Series used to witness theorems at concrete inputs. -/
def sampleSeries : Series :=
  { images := ["LT50130301995178AAA02"]
    band_names := ["Band 1"]
    symbology := ["red"]
    metadata := [("sensor", "LT5")] }

/-- A sample driver used to witness theorems at concrete inputs. -/
def sampleDriver : Driver :=
  { series := [sampleSeries]
    get_data := fun _ _ => [{ date := 726000, value := 5000 }]
    get_prediction := fun _ _ => [{ date := 726000, value := 4900 }] }

end TSTools

namespace TSTools

/-- C8: with an empty first argument `make_sfood.sh` echoes the usage
message and exits 1 having written no output file; with a nonempty first
argument and an empty second argument the output filename defaults to
`TSTools_Graph.pdf`. -/
theorem C8_make_sfood_usage_and_default (arg1 arg2 : String) :
    (arg1 = "" →
      make_sfood arg1 arg2 =
        { exitCode := 1
          echoed := ["Must provide root of TSTools/src as 1st arg"]
          filesWritten := [] }) ∧
    (arg1 ≠ "" →
      make_sfood arg1 "" =
        { exitCode := 0
          echoed := []
          filesWritten := ["TSTools_Graph.dot", "TSTools_Graph.pdf"] }) := by
  constructor
  · intro h
    simp [make_sfood, h]
  · intro h
    simp [make_sfood, h, basenameStripPdf]
    decide

/-- Witness for C8 at concrete arguments. -/
theorem C8_make_sfood_usage_and_default_witness :
    make_sfood "" "x" =
      { exitCode := 1
        echoed := ["Must provide root of TSTools/src as 1st arg"]
        filesWritten := [] } ∧
    make_sfood "TSTools/src" "" =
      { exitCode := 0
        echoed := []
        filesWritten := ["TSTools_Graph.dot", "TSTools_Graph.pdf"] } :=
  ⟨(C8_make_sfood_usage_and_default "" "x").1 rfl,
   (C8_make_sfood_usage_and_default "TSTools/src" "").2 (by decide)⟩

/-- C9: `bootstrap.sh` is idempotent: a run that finds the marker file
exits 0 changing nothing and performing no package operation, every
completed run ends with the marker present, and a second run in succession
leaves the system exactly as the first run left it. -/
theorem C9_bootstrap_idempotent (s : BootState) :
    (s.markerPresent = true → runBootstrap s = (s, 0)) ∧
    ((runBootstrap s).1.markerPresent = true) ∧
    runBootstrap (runBootstrap s).1 = ((runBootstrap s).1, 0) := by
  refine ⟨fun h => by simp [runBootstrap, h], ?_, ?_⟩
  · by_cases h : s.markerPresent <;> simp [runBootstrap, h]
  · by_cases h : s.markerPresent <;> simp [runBootstrap, h]

/-- Witness for C9 at a concrete state with the marker present. -/
theorem C9_bootstrap_idempotent_witness :
    runBootstrap { markerPresent := true, opsLog := [] } =
      ({ markerPresent := true, opsLog := [] }, 0) :=
  (C9_bootstrap_idempotent { markerPresent := true, opsLog := [] }).1 rfl

/-- C10: sequential `make zip` runs `deploy` then `dclean` before the
recipe archives (encoded by `zipTargetTrace`), so every file in the
produced archive is neither a `*.pyc` file nor a `.svn` entry; a new
archive is always produced, and its contents do not depend on any
pre-existing `../tstools.zip` (which the recipe deletes before
writing). -/
theorem C10_zip_clean_archive (sources : List String) (fs : PluginFS)
    (o : Option (List String)) (f : String)
    (hf : f ∈ ((makeZip sources fs).zipContents.getD [])) :
    isPycFile f = false ∧ inSvnDir f = false ∧
    (makeZip sources fs).zipContents.isSome = true ∧
    makeZip sources { fs with zipContents := o } = makeZip sources fs ∧
    zipTargetTrace = [.deployFiles, .dcleanFiles, .removeOldZip, .writeZip] := by
  have hmz : makeZip sources fs =
      { deployed := (fs.deployed ++ sources).filter (fun g => !(isPycFile g || inSvnDir g))
        zipContents :=
          some ((fs.deployed ++ sources).filter (fun g => !(isPycFile g || inSvnDir g))) } := by
    simp [makeZip, zipTargetTrace, zipPrereqActs, zipRecipeActs, execAct, deploy, dclean]
  rw [hmz] at hf
  simp only [Option.getD_some] at hf
  have hp := (List.mem_filter.mp hf).2
  simp only [Bool.not_eq_true', Bool.or_eq_false_iff] at hp
  refine ⟨hp.1, hp.2, ?_, ?_, rfl⟩
  · rw [hmz]
    rfl
  · rw [hmz]
    simp [makeZip, zipTargetTrace, zipPrereqActs, zipRecipeActs, execAct, deploy, dclean]

/-- Witness for C10: a deployment where the sources include a `.pyc` file
and a `.svn` entry, and a stale archive pre-exists. -/
theorem C10_zip_clean_archive_witness :
    isPycFile "tstools/ts_driver/series.py" = false ∧
    inSvnDir "tstools/ts_driver/series.py" = false ∧
    (makeZip ["tstools/ts_driver/series.py", "tstools/resources_rc.pyc", "tstools/.svn/entries"]
        { deployed := ["stale.PYC"], zipContents := some ["old"] }).zipContents.isSome = true ∧
    makeZip ["tstools/ts_driver/series.py", "tstools/resources_rc.pyc", "tstools/.svn/entries"]
        { deployed := ["stale.PYC"], zipContents := none } =
      makeZip ["tstools/ts_driver/series.py", "tstools/resources_rc.pyc", "tstools/.svn/entries"]
        { deployed := ["stale.PYC"], zipContents := some ["old"] } ∧
    zipTargetTrace = [.deployFiles, .dcleanFiles, .removeOldZip, .writeZip] :=
  C10_zip_clean_archive
    ["tstools/ts_driver/series.py", "tstools/resources_rc.pyc", "tstools/.svn/entries"]
    { deployed := ["stale.PYC"], zipContents := some ["old"] }
    none "tstools/ts_driver/series.py" (by decide)

/-- C1: while the map tool is active, a click on a pixel renders a plot
holding exactly the pixel's time series retrieved from the active driver
and the model fit produced through the driver. -/
theorem C1_click_plots_series_and_fits (toolActive : Bool) (d : Driver) (x y : Nat)
    (h : toolActive = true) :
    handleClick toolActive d x y =
      some { observations := d.get_data x y, modelFits := d.get_prediction x y } := by
  subst h
  rfl

/-- Witness for C1 at the sample driver and a concrete pixel. -/
theorem C1_click_plots_series_and_fits_witness :
    handleClick true sampleDriver 3 4 =
      some { observations := [{ date := 726000, value := 5000 }],
             modelFits := [{ date := 726000, value := 4900 }] } :=
  C1_click_plots_series_and_fits true sampleDriver 3 4 rfl

/-- C2: every driver exposes the same fixed interface and nothing else —
two drivers agreeing on the image-bearing Series data, the per-pixel
series retrieval and the model fit retrieval have the same image list and
are equal, so these three capabilities exhaust the interface. -/
theorem C2_driver_fixed_interface (d1 d2 : Driver)
    (hs : d1.series = d2.series)
    (hd : d1.get_data = d2.get_data)
    (hp : d1.get_prediction = d2.get_prediction) :
    d1.images = d2.images ∧ d1 = d2 := by
  cases d1
  cases d2
  cases hs
  cases hd
  cases hp
  exact ⟨rfl, rfl⟩

/-- Witness for C2 at the sample driver. -/
theorem C2_driver_fixed_interface_witness :
    sampleDriver.images = sampleDriver.images ∧ sampleDriver = sampleDriver :=
  C2_driver_fixed_interface sampleDriver sampleDriver rfl rfl rfl

/-- C3: with no external package installed no model fit can be computed at
all, and any computed fit is exactly what the installed external package
(native numerical library or R runtime) produces — the repository adds no
model computation of its own. -/
theorem C3_model_fit_only_from_external (series : List Observation) :
    computeModelFit none series = none ∧
    ∀ (pkg : ExternalPackage) (r : List Observation),
      computeModelFit (some pkg) series = some r → r = pkg.fitFunction series := by
  refine ⟨rfl, ?_⟩
  intro pkg r h
  have h2 : some (pkg.fitFunction series) = some r := h
  exact (Option.some.inj h2).symm

/-- Witness for C3 at the empty series and a concrete native-library
package. -/
theorem C3_model_fit_only_from_external_witness :
    computeModelFit none [] = none ∧
    ([] : List Observation) = (ExternalPackage.nativeLibrary id).fitFunction [] :=
  ⟨(C3_model_fit_only_from_external []).1,
   (C3_model_fit_only_from_external []).2 (ExternalPackage.nativeLibrary id) [] rfl⟩

/-- C4: a Series consists exactly of its images, band names, symbology and
metadata (it is rebuilt whole from those four fields), and every driver
operation leaves the driver's Series untouched. -/
theorem C4_series_fields_and_preservation (d : Driver) (op : DriverOp) (s : Series)
    (hs : s ∈ (applyOp d op).1.series) :
    (applyOp d op).1.series = d.series ∧
    s = { images := s.images, band_names := s.band_names,
          symbology := s.symbology, metadata := s.metadata } := by
  refine ⟨?_, ?_⟩
  · cases op <;> rfl
  · cases s
    rfl

/-- Witness for C4 at the sample driver, the image-list operation and the
sample Series. -/
theorem C4_series_fields_and_preservation_witness :
    (applyOp sampleDriver DriverOp.listImages).1.series = sampleDriver.series ∧
    sampleSeries =
      { images := sampleSeries.images, band_names := sampleSeries.band_names,
        symbology := sampleSeries.symbology, metadata := sampleSeries.metadata } :=
  C4_series_fields_and_preservation sampleDriver DriverOp.listImages sampleSeries
    (by simp [applyOp, sampleDriver])

/-- C5 counterexample: the claim that no driver implementation populating
the driver and Series containers is part of this codebase would make the
repository's recorded list of in-repo driver implementations empty; the
changelog-recorded list refutes it. -/
theorem C5_counterexample_drivers_in_repo :
    ¬ inRepoDriverImplementations = [] := by
  decide

/-- C5 (amended): drivers are located through setuptools entry points, so
implementations may live outside the repository, but the codebase itself
ships driver implementations in its `tstools.ts_drivers.drivers`
submodule, the YATSM CCDCesque driver among them. -/
theorem C5_amended_driver_locations :
    "YATSM CCDCesque" ∈ inRepoDriverImplementations ∧
    driverDiscoveryMechanism = "pkg_resources.iter_entry_points" := by
  decide

/-- In an accepted event sequence starting from a phase that precedes
driver initialization, no driver query occurs before the driver is
initialized. -/
lemma runPlugin_pre_init_no_query (es : List PluginEvent) :
    ∀ p : PluginPhase,
      (p = PluginPhase.loaded ∨ p = PluginPhase.actionsRegistered) →
      (runPlugin p es).isSome = true → queryBeforeInit es = false := by
  induction es with
  | nil =>
    intro p _ _
    rfl
  | cons e es ih =>
    intro p hp h
    cases e with
    | registerActions =>
      rcases hp with hp | hp <;> subst hp
      · exact ih PluginPhase.actionsRegistered (Or.inr rfl) h
      · exact Bool.noConfusion h
    | initDriver =>
      rfl
    | mediateUI =>
      rcases hp with hp | hp <;> subst hp <;> exact Bool.noConfusion h
    | queryDriver =>
      rcases hp with hp | hp <;> subst hp <;> exact Bool.noConfusion h

/-- C6: the plugin's control flow only accepts event sequences in which
toolbar-action registration precedes driver initialization, which precedes
the controller's UI mediation and any driver query — in particular the
driver is never queried before it is initialized. -/
theorem C6_driver_never_queried_before_init (es : List PluginEvent)
    (h : (runPlugin PluginPhase.loaded es).isSome = true) :
    queryBeforeInit es = false :=
  runPlugin_pre_init_no_query es PluginPhase.loaded (Or.inl rfl) h

/-- Witness for C6 at the canonical accepted sequence: register actions,
initialize the driver, mediate the UI, query the driver. -/
theorem C6_driver_never_queried_before_init_witness :
    (runPlugin PluginPhase.loaded
      [PluginEvent.registerActions, PluginEvent.initDriver,
       PluginEvent.mediateUI, PluginEvent.queryDriver]).isSome = true ∧
    queryBeforeInit
      [PluginEvent.registerActions, PluginEvent.initDriver,
       PluginEvent.mediateUI, PluginEvent.queryDriver] = false :=
  ⟨by decide,
   C6_driver_never_queried_before_init
     [PluginEvent.registerActions, PluginEvent.initDriver,
      PluginEvent.mediateUI, PluginEvent.queryDriver] (by decide)⟩

end TSTools
